import Mathlib

/-!
Shallow embedding of the audio ingestion and feature-extraction pipeline of
`src/API/streamlit_app.py` (functions `extract_audio_metadata`,
`process_audio_file`, `render_results`).

Modelling conventions:
* Floating-point sample values are modelled by rationals (`ℚ`); a value that
  may be `NaN` is modelled by `RVal` (`nan` or `val q`).  `np.float32`
  coercion is the identity in this model.
* External collaborators (the `soundfile` decoder, `librosa.resample`,
  `librosa.yin`, `librosa.feature.rms`, and the classifier `infa_deepfake`)
  are not part of the repository; they enter as oracle fields of an `Env`
  record, keyed by the staged file path where the source passes a path.
* The filesystem visible to `tempfile.mkdtemp` / `shutil.rmtree` is modelled
  as the list of existing directory names (`FS`); `process_audio_file` is
  state-passing on `FS`, and an exception propagating out of the Python
  function is the `Except.error` case of its result.
-/

namespace VoiceApp

/-- A float value that may be the not-a-number sentinel (`float("nan")`). -/
inductive RVal where
  | nan : RVal
  | val : ℚ → RVal
deriving DecidableEq, Repr

/-- Model of `float(np.nanmean(xs))`: the mean of the non-NaN entries, and
the NaN sentinel when there is no non-NaN entry (empty or all-NaN input). -/
def nanmean (xs : List RVal) : RVal :=
  let vs := xs.filterMap (fun x => match x with | RVal.nan => none | RVal.val q => some q)
  if vs.isEmpty then RVal.nan else RVal.val (vs.sum / (vs.length : ℚ))

/-- Result of a successful `sf.read(filepath, always_2d=False)`: a 1-D array
for mono files, a 2-D (frames x channels) array otherwise, plus the native
sample rate. -/
inductive Decoded where
  | mono (y : List ℚ) (sr : ℕ)
  | multi (frames : List (List ℚ)) (sr : ℕ)
deriving Repr

/-- Lines 28-29 of `streamlit_app.py`: `if y.ndim > 1: y = np.mean(y, axis=1)`.
A 2-D signal is collapsed to mono by averaging each frame across its
channels; a 1-D signal passes through unchanged. -/
def toMono : Decoded → List ℚ × ℕ
  | Decoded.mono y sr => (y, sr)
  | Decoded.multi frames sr => (frames.map (fun fr => fr.sum / (fr.length : ℚ)), sr)

/-- Oracles for the external collaborators called by the pipeline.
`sfRead` and `infa` are keyed by the staged file path, exactly as the source
passes `temp_file_path` to `sf.read` and `infa_deepfake`.  `Except.error ()`
models the callee raising an exception. -/
structure Env where
  sfRead : String → Except Unit Decoded
  resample : List ℚ → ℕ → ℕ → List ℚ
  minPitchWindow : ℕ
  pitchFrames : List ℚ → List RVal
  rmsRun : List ℚ → Except Unit (List RVal)
  infa : String → Except Unit (Int × String)

/-- Modelled from the spec: `librosa.yin` is an external library function
whose body is not in `src/`.  Per the spec, the pitch estimator has a
minimum window and "the estimator itself fails (e.g., signal too short)":
it raises for a signal shorter than `env.minPitchWindow` and otherwise
returns per-frame pitch estimates (frames with no valid estimate are NaN). -/
def yinRun (env : Env) (y : List ℚ) : Except Unit (List RVal) :=
  if y.length < env.minPitchWindow then Except.error () else Except.ok (env.pitchFrames y)

/-- Lines 25-38 of `streamlit_app.py`: mono collapse, `np.float32` coercion
(identity on the rational model), and resampling to `target_sr = 16000` when
the native rate differs, with `sr` then set to `target_sr`. -/
def normalize (env : Env) (d : Decoded) : List ℚ × ℕ :=
  let p := toMono d
  let y := p.1
  let sr := p.2
  if sr ≠ 16000 then (env.resample y sr 16000, 16000) else (y, sr)

/-- The record returned by `extract_audio_metadata` (and defaulted in
`process_audio_file` when extraction fails). -/
structure Info where
  samples : ℕ
  sr : ℕ
  duration : ℚ
  avg_pitch : RVal
  avg_energy : RVal
  waveform : List ℚ
deriving DecidableEq, Repr

/-- Lines 40-62 of `streamlit_app.py`, after normalization: duration via
`librosa.get_duration(y=y, sr=sr)` (= `len(y) / sr`), then pitch and energy
each inside its own `try/except` that degrades that field alone to
`float("nan")`, then the assembled record. -/
def computeInfo (env : Env) (y : List ℚ) (sr : ℕ) : Info :=
  let duration : ℚ := (y.length : ℚ) / (sr : ℚ)
  let avg_pitch : RVal :=
    match yinRun env y with
    | Except.ok pitch => nanmean pitch
    | Except.error _ => RVal.nan
  let avg_energy : RVal :=
    match env.rmsRun y with
    | Except.ok rms => nanmean rms
    | Except.error _ => RVal.nan
  { samples := y.length, sr := sr, duration := duration,
    avg_pitch := avg_pitch, avg_energy := avg_energy, waveform := y }

/-- Lines 23-62 of `streamlit_app.py`: `extract_audio_metadata(filepath)`.
Decodes the staged file (propagating a decode exception as `Except.error`),
normalizes, and computes the descriptor record. -/
def extract_audio_metadata (env : Env) (filepath : String) : Except Unit Info :=
  match env.sfRead filepath with
  | Except.error e => Except.error e
  | Except.ok d =>
      let p := normalize env d
      Except.ok (computeInfo env p.1 p.2)

/-- The defaulted record substituted at lines 91-98 when
`extract_audio_metadata` raises. -/
def default_audio_info : Info :=
  { samples := 0, sr := 0, duration := 0, avg_pitch := RVal.nan,
    avg_energy := RVal.nan, waveform := [] }

/-- The filesystem as the set of existing transient directories. -/
structure FS where
  dirs : List String
deriving Repr

/-- Model of `tempfile.mkdtemp()`: the fresh directory now exists. -/
def mkdtemp (fs : FS) (name : String) : FS :=
  { dirs := name :: fs.dirs }

/-- Model of `shutil.rmtree(temp_dir, ignore_errors=True)`: the directory no
longer exists afterwards. -/
def rmtree (fs : FS) (name : String) : FS :=
  { dirs := fs.dirs.filter (fun d => d != name) }

/-- One invocation's request data: the fresh directory name chosen by
`mkdtemp`, the caller-supplied display name, and whether
`uploaded_file.read()` plus the staging write succeed (`false` models an
exception raised while staging). -/
structure Request where
  dirName : String
  fileName : String
  readOk : Bool

/-- The staged path `os.path.join(temp_dir, uploaded_file.name)`. -/
def temp_path (req : Request) : String :=
  req.dirName ++ "/" ++ req.fileName

/-- Lines 65-105 of `streamlit_app.py`: `process_audio_file`.  Creates the
transient directory, stages the bytes, extracts metadata with the defaulted
fallback on any extraction exception, invokes the classifier on the staged
path, and removes the directory in a `finally` on every path.  The returned
`Except` is `error` exactly when the Python function propagates an
exception (staging failure or classifier exception). -/
def process_audio_file (env : Env) (req : Request) (fs : FS) :
    Except Unit (Int × String × Info) × FS :=
  let fs1 := mkdtemp fs req.dirName
  let result : Except Unit (Int × String × Info) :=
    if req.readOk = true then
      let audio_info :=
        match extract_audio_metadata env (temp_path req) with
        | Except.ok i => i
        | Except.error _ => default_audio_info
      match env.infa (temp_path req) with
      | Except.ok sm => Except.ok (sm.1, sm.2, audio_info)
      | Except.error e => Except.error e
    else Except.error ()
  (result, rmtree fs1 req.dirName)

/-- The three result-card states rendered by `render_results`. -/
inductive RenderState where
  | deepfake : RenderState
  | real : RenderState
  | failed : RenderState
deriving DecidableEq, Repr

/-- Occurrence of `needle` as a contiguous sublist of the haystack; model of
the Python `in` operator on strings. -/
def list_contains (needle : List Char) : List Char → Bool
  | [] => needle.isEmpty
  | c :: rest => needle.isPrefixOf (c :: rest) || list_contains needle rest

/-- Line 123 of `streamlit_app.py`: `is_fake = "fake" in str(message).lower()`. -/
def is_fake (message : String) : Bool :=
  list_contains "fake".toList (message.toList.map Char.toLower)

/-- Lines 121-165 of `streamlit_app.py`: the result-card dispatch of
`render_results`.  `status == 1` renders the deepfake card when the
lower-cased message contains "fake" and the real-audio card otherwise; any
other status renders the inference-failed card. -/
def render_results (status : Int) (message : String) : RenderState :=
  if status = 1 then
    if is_fake message then RenderState.deepfake else RenderState.real
  else RenderState.failed

/-- A concrete environment used by the concrete-input theorems: the decoder
always raises (undecodable bytes), the classifier reports a deepfake
verdict, and the metric oracles are inert. -/
def envA : Env :=
  { sfRead := fun _ => Except.error ()
    resample := fun y _ _ => y
    minPitchWindow := 2048
    pitchFrames := fun _ => []
    rmsRun := fun _ => Except.error ()
    infa := fun _ => Except.ok (1, "Fake voice detected") }

/-- A concrete request whose staging write succeeds. -/
def reqA : Request :=
  { dirName := "tmpabc123", fileName := "clip.wav", readOk := true }

/-- An initially empty filesystem. -/
def fs0 : FS := { dirs := [] }

/-- C1: for every environment (every combination of staging, decode and
classifier outcomes) and every starting filesystem, the transient directory
created by `process_audio_file` does not exist in the filesystem it leaves
behind, whether the call returns a result or propagates an exception: the
`finally` clause removes it on every path. -/
theorem c1_cleanup_guarantee (env : Env) (req : Request) (fs : FS) :
    req.dirName ∉ (process_audio_file env req fs).2.dirs := by
  intro hmem
  have h : req.dirName ∈ (rmtree (mkdtemp fs req.dirName) req.dirName).dirs := by
    simpa [process_audio_file] using hmem
  simp [rmtree, List.mem_filter] at h

/-- C2: when the staging write succeeds, metadata extraction fails (the
decoder raises on the staged bytes) and the classifier returns `(s, m)`,
`process_audio_file` returns exactly the classifier's pair together with the
fully-defaulted descriptor record (samples 0, sr 0, duration 0, pitch NaN,
energy NaN, empty waveform). -/
theorem c2_default_descriptors (env : Env) (req : Request) (fs : FS)
    (s : Int) (m : String)
    (hread : req.readOk = true)
    (hdec : env.sfRead (temp_path req) = Except.error ())
    (hcls : env.infa (temp_path req) = Except.ok (s, m)) :
    (process_audio_file env req fs).1 =
      Except.ok (s, m,
        { samples := 0, sr := 0, duration := 0, avg_pitch := RVal.nan,
          avg_energy := RVal.nan, waveform := [] }) := by
  simp [process_audio_file, extract_audio_metadata, default_audio_info,
    hread, hdec, hcls]

/-- Closed witness for C2 at a concrete environment and request. -/
theorem c2_default_descriptors_witness :
    (process_audio_file envA reqA fs0).1 =
      Except.ok (1, "Fake voice detected",
        { samples := 0, sr := 0, duration := 0, avg_pitch := RVal.nan,
          avg_energy := RVal.nan, waveform := [] }) :=
  c2_default_descriptors envA reqA fs0 1 "Fake voice detected" rfl rfl rfl

/-- C4: for every decoded signal, the sample rate returned by normalization
is exactly 16000: either the native rate already was 16000, or the resample
branch sets it to 16000. -/
theorem c4_sample_rate_invariant (env : Env) (d : Decoded) :
    (normalize env d).2 = 16000 := by
  simp only [normalize]
  split
  · rfl
  · next h => simpa using h

/-- C8: normalizing an already-canonical signal (mono, sample rate 16000) is
a no-op: the mono branch and the resampling branch are both skipped, so the
output equals the input exactly, with the same length and sample rate. -/
theorem c8_idempotence (env : Env) (y : List ℚ) :
    normalize env (Decoded.mono y 16000) = (y, 16000) := by
  simp [normalize, toMono]

/-- C3: for every canonical signal (including the zero-length signal) the
descriptor computation is a total function returning all six fields: the
structural fields (samples, sr, duration, waveform) take their normally
computed values whatever the metric oracles do, and each metric field is
the NaN sentinel exactly when its own estimator fails, the computed
nan-ignoring mean when it succeeds. -/
theorem c3_extractor_totality (env : Env) (y : List ℚ) (sr : ℕ) :
    (computeInfo env y sr).samples = y.length
    ∧ (computeInfo env y sr).sr = sr
    ∧ (computeInfo env y sr).duration = (y.length : ℚ) / (sr : ℚ)
    ∧ (computeInfo env y sr).waveform = y
    ∧ (yinRun env y = Except.error () → (computeInfo env y sr).avg_pitch = RVal.nan)
    ∧ (∀ fr, yinRun env y = Except.ok fr → (computeInfo env y sr).avg_pitch = nanmean fr)
    ∧ (env.rmsRun y = Except.error () → (computeInfo env y sr).avg_energy = RVal.nan)
    ∧ (∀ fr, env.rmsRun y = Except.ok fr → (computeInfo env y sr).avg_energy = nanmean fr) := by
  refine ⟨rfl, rfl, rfl, rfl, ?_, ?_, ?_, ?_⟩
  · intro h; simp [computeInfo, h]
  · intro fr h; simp [computeInfo, h]
  · intro h; simp [computeInfo, h]
  · intro fr h; simp [computeInfo, h]

/-- C5: the mono-collapse step maps a multi-channel decoded signal (uniform
channel count `c ≥ 2`) to the single-channel signal whose sample at each
frame is the arithmetic mean of that frame's channels, and passes a
single-channel signal through unchanged. -/
theorem c5_mono_mean (frames : List (List ℚ)) (sr c : ℕ)
    (_hc : 2 ≤ c) (hlen : ∀ fr ∈ frames, fr.length = c) :
    toMono (Decoded.multi frames sr) = (frames.map (fun fr => fr.sum / (c : ℚ)), sr)
    ∧ ∀ (z : List ℚ) (sr2 : ℕ), toMono (Decoded.mono z sr2) = (z, sr2) := by
  constructor
  · have h : frames.map (fun fr => fr.sum / (fr.length : ℚ))
        = frames.map (fun fr => fr.sum / (c : ℚ)) :=
      List.map_congr_left (fun fr hfr => by rw [hlen fr hfr])
    simpa [toMono] using congrArg (fun l => (l, sr)) h
  · intro z sr2
    rfl

/-- Closed witness for C5: a stereo signal of two frames averages to the
per-frame channel means. -/
theorem c5_mono_mean_witness :
    toMono (Decoded.multi [[1, 3], [2, 6]] 44100) = ([2, 4], 44100) := by
  have h := (c5_mono_mean [[1, 3], [2, 6]] 44100 2 (by norm_num) (by decide)).1
  rw [h]
  norm_num [List.map_cons, List.map_nil, List.sum_cons, List.sum_nil]

/-- C6: the result-card dispatch is a three-way total case split: status 1
with "fake" in the lower-cased message renders the deepfake card, status 1
without it renders the real-audio card, and any other status renders the
inference-failed card; exactly one of the three states occurs. -/
theorem c6_render_trichotomy (status : Int) (message : String) :
    (render_results status message = RenderState.deepfake ↔ status = 1 ∧ is_fake message = true)
    ∧ (render_results status message = RenderState.real ↔ status = 1 ∧ is_fake message = false)
    ∧ (render_results status message = RenderState.failed ↔ status ≠ 1) := by
  by_cases h : status = 1
  · by_cases hf : is_fake message <;> simp [render_results, h, hf]
  · simp [render_results, h]

/-- C7: for a decodable signal shorter than the pitch estimator's minimum
window, the average-pitch field is the NaN sentinel while duration equals
sample count / 16000 and the samples field equals the true sample count. -/
theorem c7_short_signal_sentinel (env : Env) (y : List ℚ)
    (h : y.length < env.minPitchWindow) :
    (computeInfo env y 16000).avg_pitch = RVal.nan
    ∧ (computeInfo env y 16000).duration = (y.length : ℚ) / (16000 : ℚ)
    ∧ (computeInfo env y 16000).samples = y.length := by
  refine ⟨?_, ?_, rfl⟩
  · simp [computeInfo, yinRun, h]
  · norm_num [computeInfo]

/-- Closed witness for C7: a one-sample signal is below the 2048-sample
window, so its pitch is NaN while duration and samples are computed. -/
theorem c7_short_signal_sentinel_witness :
    (computeInfo envA [0] 16000).avg_pitch = RVal.nan
    ∧ (computeInfo envA [0] 16000).duration = (1 : ℚ) / (16000 : ℚ)
    ∧ (computeInfo envA [0] 16000).samples = 1 := by
  have h := c7_short_signal_sentinel envA [0] (by decide)
  simpa using h

/-- Counterexample to C9: at a concrete request whose staged bytes the
decoder rejects (`sfRead` raises), `process_audio_file` still produces a
result — the claim that a decode failure is a hard failure path from which
no result is produced is false on the code, which catches the extraction
exception and proceeds to classification with defaulted descriptors. -/
theorem c9_counterexample_decode_swallowed :
    envA.sfRead (temp_path reqA) = Except.error ()
    ∧ (process_audio_file envA reqA fs0).1 =
        Except.ok (1, "Fake voice detected", default_audio_info) :=
  ⟨rfl, rfl⟩

/-- C9 (amended): a decode failure is fatal only to descriptor computation,
never to the request: once staging succeeded and the decoder has raised,
`process_audio_file` propagates an exception if and only if the classifier
itself raises — the decode failure alone never propagates. -/
theorem c9_decode_failure_not_propagated (env : Env) (req : Request) (fs : FS)
    (hread : req.readOk = true)
    (hdec : env.sfRead (temp_path req) = Except.error ()) :
    (process_audio_file env req fs).1 = Except.error () ↔
      env.infa (temp_path req) = Except.error () := by
  simp only [process_audio_file, extract_audio_metadata, hread, hdec, if_true]
  cases hcls : env.infa (temp_path req) <;> simp [hcls]

/-- Closed witness for the amended C9 at a concrete environment. -/
theorem c9_decode_failure_not_propagated_witness :
    (process_audio_file envA reqA fs0).1 = Except.error () ↔
      envA.infa (temp_path reqA) = Except.error () :=
  c9_decode_failure_not_propagated envA reqA fs0 rfl rfl

/-- Helper for C10: any descriptor record carried by a successful result of
`process_audio_file` is either the defaulted fallback record or the output
of `computeInfo` on some normalized signal. -/
theorem process_info_shape (env : Env) (req : Request) (fs : FS)
    (s : Int) (m : String) (i : Info)
    (h : (process_audio_file env req fs).1 = Except.ok (s, m, i)) :
    i = default_audio_info ∨ ∃ y sr, i = computeInfo env y sr := by
  simp only [process_audio_file] at h
  split at h
  · split at h
    · next sm heq =>
      rw [Except.ok.injEq, Prod.mk.injEq, Prod.mk.injEq] at h
      obtain ⟨h1, h2, h3⟩ := h
      cases hd : env.sfRead (temp_path req) with
      | error e =>
        simp only [extract_audio_metadata, hd] at h3
        exact Or.inl h3.symm
      | ok d =>
        simp only [extract_audio_metadata, hd] at h3
        exact Or.inr ⟨(normalize env d).1, (normalize env d).2, h3.symm⟩
    · exact absurd h (by simp)
  · exact absurd h (by simp)

/-- C10: every descriptor record returned by `process_audio_file`, whether
from successful extraction or from the defaulted fallback, has its samples
field equal to the length of its waveform field. -/
theorem c10_samples_eq_waveform_length (env : Env) (req : Request) (fs : FS)
    (s : Int) (m : String) (i : Info)
    (h : (process_audio_file env req fs).1 = Except.ok (s, m, i)) :
    i.samples = i.waveform.length := by
  rcases process_info_shape env req fs s m i h with h1 | ⟨y, sr, h1⟩
  · subst h1; rfl
  · subst h1; rfl

/-- Closed witness for C10 at a concrete request producing the defaulted
record. -/
theorem c10_samples_eq_waveform_length_witness :
    default_audio_info.samples = default_audio_info.waveform.length :=
  c10_samples_eq_waveform_length envA reqA fs0 1 "Fake voice detected"
    default_audio_info rfl

end VoiceApp
